import Mathlib

/-!
A verification development of the Terraform Code Generator application
(src/streamlit_app.py).  The Python program is shallowly embedded below:
each definition mirrors one function of the source file, Python dicts of
file templates become association lists in insertion order, and Python
exceptions become Except or Option values.  The Streamlit UI layer, the
HTTP clients and the anthropic library are external to the repository and
are modelled by explicit parameters where a function of the repository
calls into them.  String literals from the source are reproduced exactly,
with braces and other special characters written as escape sequences.
-/

set_option maxRecDepth 8192

/-! ## Python string primitives used by the source -/

/-- The opening curly brace character. -/
def lbrace : Char := '\x7b'

/-- The closing curly brace character. -/
def rbrace : Char := '\x7d'

/-- Whether the second list of characters starts with the first one. -/
def leadsWith : List Char → List Char → Bool
  | [], _ => true
  | _ :: _, [] => false
  | a :: as, b :: bs => a == b && leadsWith as bs

/-- Whether sub occurs contiguously inside the second list. -/
def containsSub (sub : List Char) : List Char → Bool
  | [] => leadsWith sub []
  | c :: cs => leadsWith sub (c :: cs) || containsSub sub cs

/-- Python membership test for strings: sub in s. -/
def pyIn (sub s : String) : Bool := containsSub sub.data s.data

/-- Index of the first occurrence of c, or -1: Python str.find restricted to a
single character needle, as the source uses it. -/
def listFind (c : Char) : List Char → Int
  | [] => -1
  | a :: as =>
    if a = c then 0
    else if listFind c as = -1 then -1 else listFind c as + 1

/-- Python str.find for a single character. -/
def pyFind (s : String) (c : Char) : Int := listFind c s.data

/-- Index of the last occurrence of c, or -1. -/
def listRfind (c : Char) : List Char → Int
  | [] => -1
  | a :: as =>
    if listRfind c as = -1 then (if a = c then 0 else -1)
    else listRfind c as + 1

/-- Python str.rfind for a single character. -/
def pyRfind (s : String) (c : Char) : Int := listRfind c s.data

/-- Python slice s[a:b] for the nonnegative bounds the source computes
(the source only slices with a equal to a found index, hence nonnegative,
and b equal to rfind plus one, hence nonnegative as well). -/
def pySlice (s : String) (a b : Int) : String :=
  String.mk ((s.data.drop a.toNat).take (b.toNat - a.toNat))

/-- Python str.lower on the ASCII pattern names of the catalog. -/
def pyLower (s : String) : String := String.mk (s.data.map Char.toLower)

/-- Python str.replace for single-character needle and replacement. -/
def pyReplaceChar (s : String) (a b : Char) : String :=
  String.mk (s.data.map fun c => if c = a then b else c)

/-- How a Python bool renders inside an f-string. -/
def pyBoolStr (b : Bool) : String := if b then "True" else "False"

/-- Concatenation of the pieces of an f-string, in order. -/
def strConcat : List String → String
  | [] => ""
  | s :: ss => s ++ strConcat ss

/-! ## Data model: the TerraformPattern record (source lines 62 to 71) -/

/-- The dataclass TerraformPattern of the source: its eight fields, in
declaration order. -/
structure TerraformPattern where
  name : String
  description : String
  path : String
  download_url : String
  category : String
  provider : String
  complexity : String
  files : List String
deriving DecidableEq

/-- One entry of the predefined_patterns literal inside fetch_aws_patterns:
a dict with exactly the keys name, description, category, complexity, files. -/
structure PredefinedPattern where
  name : String
  description : String
  category : String
  complexity : String
  files : List String
deriving DecidableEq

/-- The predefined_patterns list literal, source lines 90 to 315, in order. -/
def predefined_patterns : List PredefinedPattern := [
  ⟨"VPC Module", "Complete VPC setup with public/private subnets, NAT gateway, and internet gateway", "networking", "intermediate", ["main.tf", "variables.tf", "outputs.tf"]⟩,
  ⟨"Security Groups", "Reusable security groups for web, database, and application tiers", "security", "beginner", ["main.tf", "variables.tf", "outputs.tf"]⟩,
  ⟨"NAT Gateway", "NAT Gateway with Elastic IP for private subnet internet access", "networking", "beginner", ["main.tf", "variables.tf", "outputs.tf"]⟩,
  ⟨"EC2 Instance", "Configurable EC2 instance with security groups and key pair management", "compute", "beginner", ["main.tf", "variables.tf", "outputs.tf"]⟩,
  ⟨"Auto Scaling Group", "Auto Scaling Group with Launch Template and multiple AZ support", "compute", "intermediate", ["main.tf", "variables.tf", "outputs.tf"]⟩,
  ⟨"Lambda Function", "Serverless Lambda function with IAM role, CloudWatch logs, and API Gateway integration", "compute", "intermediate", ["main.tf", "variables.tf", "outputs.tf"]⟩,
  ⟨"EKS Cluster", "Complete EKS cluster with node groups, IRSA, and add-ons", "compute", "advanced", ["main.tf", "variables.tf", "outputs.tf", "eks-cluster.tf", "eks-nodes.tf"]⟩,
  ⟨"ECS Cluster", "ECS cluster with Fargate support and service discovery", "compute", "intermediate", ["main.tf", "variables.tf", "outputs.tf"]⟩,
  ⟨"S3 Bucket", "S3 bucket with versioning, encryption, lifecycle policies, and CloudFront integration", "storage", "beginner", ["main.tf", "variables.tf", "outputs.tf"]⟩,
  ⟨"EFS File System", "Elastic File System with mount targets and backup policies", "storage", "intermediate", ["main.tf", "variables.tf", "outputs.tf"]⟩,
  ⟨"RDS Database", "MySQL/PostgreSQL RDS with Multi-AZ, read replicas, and automated backups", "database", "intermediate", ["main.tf", "variables.tf", "outputs.tf"]⟩,
  ⟨"ElastiCache Redis", "Redis cluster with replication group and subnet group", "database", "intermediate", ["main.tf", "variables.tf", "outputs.tf"]⟩,
  ⟨"DynamoDB Table", "DynamoDB table with GSI, backup, and point-in-time recovery", "database", "beginner", ["main.tf", "variables.tf", "outputs.tf"]⟩,
  ⟨"Application Load Balancer", "ALB with target groups, health checks, SSL termination, and WAF integration", "networking", "intermediate", ["main.tf", "variables.tf", "outputs.tf"]⟩,
  ⟨"Network Load Balancer", "NLB for high-performance TCP/UDP load balancing", "networking", "intermediate", ["main.tf", "variables.tf", "outputs.tf"]⟩,
  ⟨"CloudFront Distribution", "CloudFront CDN with S3 origin, custom headers, and caching policies", "networking", "intermediate", ["main.tf", "variables.tf", "outputs.tf"]⟩,
  ⟨"Route53 DNS", "Route53 hosted zone with health checks and alias records", "networking", "beginner", ["main.tf", "variables.tf", "outputs.tf"]⟩,
  ⟨"API Gateway", "REST API Gateway with Lambda integration, CORS, and API keys", "compute", "intermediate", ["main.tf", "variables.tf", "outputs.tf"]⟩,
  ⟨"SQS Queue", "SQS queue with dead letter queue and visibility timeout", "messaging", "beginner", ["main.tf", "variables.tf", "outputs.tf"]⟩,
  ⟨"SNS Topic", "SNS topic with subscriptions and delivery policies", "messaging", "beginner", ["main.tf", "variables.tf", "outputs.tf"]⟩,
  ⟨"IAM Roles & Policies", "Reusable IAM roles for EC2, Lambda, and EKS with least privilege policies", "security", "intermediate", ["main.tf", "variables.tf", "outputs.tf"]⟩,
  ⟨"Secrets Manager", "AWS Secrets Manager for database credentials and API keys with rotation", "security", "beginner", ["main.tf", "variables.tf", "outputs.tf"]⟩,
  ⟨"Parameter Store", "Systems Manager Parameter Store for configuration management", "security", "beginner", ["main.tf", "variables.tf", "outputs.tf"]⟩,
  ⟨"CloudWatch Monitoring", "CloudWatch alarms, dashboards, and log groups with metric filters", "monitoring", "intermediate", ["main.tf", "variables.tf", "outputs.tf"]⟩,
  ⟨"ECR Repository", "Elastic Container Registry with lifecycle policies and image scanning", "devops", "beginner", ["main.tf", "variables.tf", "outputs.tf"]⟩,
  ⟨"CodePipeline", "Complete CI/CD pipeline with CodeBuild, CodeDeploy, and S3 artifacts", "devops", "advanced", ["main.tf", "variables.tf", "outputs.tf", "buildspec.yml"]⟩,
  ⟨"3-Tier Web Application", "Complete 3-tier architecture with ALB, ASG, RDS, and CloudFront", "architecture", "advanced", ["main.tf", "variables.tf", "outputs.tf", "web-tier.tf", "app-tier.tf", "db-tier.tf"]⟩,
  ⟨"Serverless Web App", "Serverless architecture with Lambda, API Gateway, DynamoDB, and S3", "architecture", "advanced", ["main.tf", "variables.tf", "outputs.tf", "lambda.tf", "api-gateway.tf"]⟩,
  ⟨"Data Lake Architecture", "S3 data lake with Glue, Athena, and EMR for big data processing", "architecture", "advanced", ["main.tf", "variables.tf", "outputs.tf", "data-lake.tf", "glue.tf"]⟩
]

/-- GitHubPatternFetcher.fetch_aws_patterns, source lines 84 to 329: builds a
TerraformPattern from every predefined entry.  The function reads no state and
takes no input, so every call returns this same list in this same order (the
st.cache_data decorator only memoises that constant). -/
def fetch_aws_patterns : List TerraformPattern :=
  predefined_patterns.map fun pattern_data =>
    { name := pattern_data.name
      description := pattern_data.description
      path := "terraform-aws-modules/" ++ pyReplaceChar (pyLower pattern_data.name) ' ' '-'
      download_url := "https://github.com/terraform-aws-modules"
      category := pattern_data.category
      provider := "aws"
      complexity := pattern_data.complexity
      files := pattern_data.files }

/-! ## Template dictionaries

A Python dict mapping file names to template strings is embedded as an
association list in insertion order.  Python resolves a method name on a class
to the textually last def with that name, so the detailed template methods of
source lines 331 to 1793 and 2028 to 2692 are dead code: the stubs of lines
2693 to 2766 shadow all of them.  Only the Lambda branch keeps a detailed
dictionary, because _get_lambda_code (line 1844) is never redefined. -/

/-- GitHubPatternFetcher._get_basic_code, source lines 2769 to 2807. -/
def _get_basic_code (pattern_name : String) : List (String × String) :=
  [("main.tf", strConcat ["# ",
      pattern_name,
      " Configuration\n# This is a basic template for ",
      pattern_name,
      "\n\nterraform \x7b\n  required_version = \">= 1.0\"\n  \n  required_providers \x7b\n    aws = \x7b\n      source  = \"hashicorp/aws\"\n      version = \"~> 5.0\"\n    \x7d\n  \x7d\n\x7d\n\nprovider \"aws\" \x7b\n  region = var.aws_region\n\x7d\n\n# Add your ",
      pattern_name,
      " resources here"]),
   ("variables.tf", "variable \"aws_region\" \x7b\n  description = \"AWS region\"\n  type        = string\n  default     = \"us-west-2\"\n\x7d\n\nvariable \"environment\" \x7b\n  description = \"Environment name\"\n  type        = string\n  default     = \"dev\"\n\x7d"),
   ("outputs.tf", "# Add your outputs here\n# Example:\n# output \"resource_id\" \x7b\n#   description = \"ID of the created resource\"\n#   value       = aws_resource.example.id\n# \x7d")]

/-- GitHubPatternFetcher._get_lambda_code, source lines 1844 to 2023: the one detailed template dictionary that is not shadowed by a later stub. -/
def _get_lambda_code : List (String × String) :=
  [("main.tf", "# Lambda Function\n    resource \"aws_lambda_function\" \"main\" \x7b\n    filename         = var.lambda_zip_path\n    function_name    = \"$\x7bvar.environment\x7d-$\x7bvar.function_name\x7d\"\n    role            = aws_iam_role.lambda.arn\n    handler         = var.handler\n    source_code_hash = filebase64sha256(var.lambda_zip_path)\n    runtime         = var.runtime\n    timeout         = var.timeout\n    memory_size     = var.memory_size\n\n    environment \x7b\n        variables = var.environment_variables\n    \x7d\n\n    vpc_config \x7b\n        subnet_ids         = var.subnet_ids\n        security_group_ids = var.security_group_ids\n    \x7d\n\n    tags = merge(var.common_tags, \x7b\n        Name = \"$\x7bvar.environment\x7d-$\x7bvar.function_name\x7d\"\n    \x7d)\n    \x7d\n\n    # IAM Role for Lambda\n    resource \"aws_iam_role\" \"lambda\" \x7b\n    name = \"$\x7bvar.environment\x7d-$\x7bvar.function_name\x7d-role\"\n\n    assume_role_policy = jsonencode(\x7b\n        Version = \"2012-10-17\"\n        Statement = [\n        \x7b\n            Action = \"sts:AssumeRole\"\n            Effect = \"Allow\"\n            Principal = \x7b\n            Service = \"lambda.amazonaws.com\"\n            \x7d\n        \x7d\n        ]\n    \x7d)\n\n    tags = var.common_tags\n    \x7d\n\n    # Basic Lambda execution policy\n    resource \"aws_iam_role_policy_attachment\" \"lambda_basic\" \x7b\n    policy_arn = \"arn:aws:iam::aws:policy/service-role/AWSLambdaBasicExecutionRole\"\n    role       = aws_iam_role.lambda.name\n    \x7d\n\n    # VPC execution policy (if VPC is used)\n    resource \"aws_iam_role_policy_attachment\" \"lambda_vpc\" \x7b\n    count      = length(var.subnet_ids) > 0 ? 1 : 0\n    policy_arn = \"arn:aws:iam::aws:policy/service-role/AWSLambdaVPCAccessExecutionRole\"\n    role       = aws_iam_role.lambda.name\n    \x7d\n\n    # CloudWatch Log Group\n    resource \"aws_cloudwatch_log_group\" \"lambda\" \x7b\n    name              = \"/aws/lambda/$\x7bvar.environment\x7d-$\x7bvar.function_name\x7d\"\n    retention_in_days = var.log_retention_days\n\n    tags = var.common_tags\n    \x7d\n\n    # Lambda Permission for API Gateway (optional)\n    resource \"aws_lambda_permission\" \"api_gateway\" \x7b\n    count         = var.enable_api_gateway ? 1 : 0\n    statement_id  = \"AllowAPIGatewayInvoke\"\n    action        = \"lambda:InvokeFunction\"\n    function_name = aws_lambda_function.main.function_name\n    principal     = \"apigateway.amazonaws.com\"\n    \x7d"),
   ("variables.tf", "variable \"environment\" \x7b\n    description = \"Environment name\"\n    type        = string\n    default     = \"dev\"\n    \x7d\n\n    variable \"function_name\" \x7b\n    description = \"Lambda function name\"\n    type        = string\n    \x7d\n\n    variable \"lambda_zip_path\" \x7b\n    description = \"Path to Lambda deployment package\"\n    type        = string\n    default     = \"lambda_function.zip\"\n    \x7d\n\n    variable \"handler\" \x7b\n    description = \"Lambda function handler\"\n    type        = string\n    default     = \"index.handler\"\n    \x7d\n\n    variable \"runtime\" \x7b\n    description = \"Lambda runtime\"\n    type        = string\n    default     = \"python3.9\"\n    \x7d\n\n    variable \"timeout\" \x7b\n    description = \"Lambda timeout in seconds\"\n    type        = number\n    default     = 30\n    \x7d\n\n    variable \"memory_size\" \x7b\n    description = \"Lambda memory size in MB\"\n    type        = number\n    default     = 128\n    \x7d\n\n    variable \"environment_variables\" \x7b\n    description = \"Environment variables for Lambda\"\n    type        = map(string)\n    default     = \x7b\x7d\n    \x7d\n\n    variable \"subnet_ids\" \x7b\n    description = \"Subnet IDs for VPC configuration\"\n    type        = list(string)\n    default     = []\n    \x7d\n\n    variable \"security_group_ids\" \x7b\n    description = \"Security group IDs for VPC configuration\"\n    type        = list(string)\n    default     = []\n    \x7d\n\n    variable \"log_retention_days\" \x7b\n    description = \"CloudWatch log retention period\"\n    type        = number\n    default     = 14\n    \x7d\n\n    variable \"enable_api_gateway\" \x7b\n    description = \"Enable API Gateway integration\"\n    type        = bool\n    default     = false\n    \x7d\n\n    variable \"common_tags\" \x7b\n    description = \"Common tags for all resources\"\n    type        = map(string)\n    default = \x7b\n        Terraform   = \"true\"\n        Environment = \"dev\"\n    \x7d\n    \x7d"),
   ("outputs.tf", "output \"lambda_function_arn\" \x7b\n    description = \"Lambda function ARN\"\n    value       = aws_lambda_function.main.arn\n    \x7d\n\n    output \"lambda_function_name\" \x7b\n    description = \"Lambda function name\"\n    value       = aws_lambda_function.main.function_name\n    \x7d\n\n    output \"lambda_invoke_arn\" \x7b\n    description = \"Lambda function invoke ARN\"\n    value       = aws_lambda_function.main.invoke_arn\n    \x7d\n\n    output \"lambda_role_arn\" \x7b\n    description = \"Lambda IAM role ARN\"\n    value       = aws_iam_role.lambda.arn\n    \x7d\n\n    output \"cloudwatch_log_group\" \x7b\n    description = \"CloudWatch log group name\"\n    value       = aws_cloudwatch_log_group.lambda.name\n    \x7d")]

/-- Stub at source line 2693: the def of this name that Python keeps. -/
def _get_alb_code : List (String × String) := _get_basic_code "Application Load Balancer"

/-- Stub at source line 2696: the def of this name that Python keeps. -/
def _get_nlb_code : List (String × String) := _get_basic_code "Network Load Balancer"

/-- Stub at source line 2699: the def of this name that Python keeps. -/
def _get_eks_code : List (String × String) := _get_basic_code "EKS Cluster"

/-- Stub at source line 2702: the def of this name that Python keeps. -/
def _get_ecs_code : List (String × String) := _get_basic_code "ECS Cluster"

/-- Stub at source line 2705: the def of this name that Python keeps. -/
def _get_rds_code : List (String × String) := _get_basic_code "RDS Database"

/-- Stub at source line 2708: the def of this name that Python keeps. -/
def _get_asg_code : List (String × String) := _get_basic_code "Auto Scaling Group"

/-- Stub at source line 2711: the def of this name that Python keeps. -/
def _get_cloudfront_code : List (String × String) := _get_basic_code "CloudFront Distribution"

/-- Stub at source line 2714: the def of this name that Python keeps. -/
def _get_api_gateway_code : List (String × String) := _get_basic_code "API Gateway"

/-- Stub at source line 2717: the def of this name that Python keeps. -/
def _get_sqs_code : List (String × String) := _get_basic_code "SQS Queue"

/-- Stub at source line 2720: the def of this name that Python keeps. -/
def _get_sns_code : List (String × String) := _get_basic_code "SNS Topic"

/-- Stub at source line 2723: the def of this name that Python keeps. -/
def _get_dynamodb_code : List (String × String) := _get_basic_code "DynamoDB Table"

/-- Stub at source line 2726: the def of this name that Python keeps. -/
def _get_elasticache_code : List (String × String) := _get_basic_code "ElastiCache Redis Cluster"

/-- Stub at source line 2729: the def of this name that Python keeps. -/
def _get_route53_code : List (String × String) := _get_basic_code "Route53 DNS Configuration"

/-- Stub at source line 2732: the def of this name that Python keeps. -/
def _get_iam_code : List (String × String) := _get_basic_code "IAM Roles and Policies"

/-- Stub at source line 2735: the def of this name that Python keeps. -/
def _get_secrets_manager_code : List (String × String) := _get_basic_code "AWS Secrets Manager"

/-- Stub at source line 2738: the def of this name that Python keeps. -/
def _get_parameter_store_code : List (String × String) := _get_basic_code "Systems Manager Parameter Store"

/-- Stub at source line 2741: the def of this name that Python keeps. -/
def _get_cloudwatch_code : List (String × String) := _get_basic_code "CloudWatch Monitoring"

/-- Stub at source line 2744: the def of this name that Python keeps. -/
def _get_ecr_code : List (String × String) := _get_basic_code "ECR Repository"

/-- Stub at source line 2747: the def of this name that Python keeps. -/
def _get_codepipeline_code : List (String × String) := _get_basic_code "CodePipeline"

/-- Stub at source line 2750: the def of this name that Python keeps. -/
def _get_efs_code : List (String × String) := _get_basic_code "EFS File System"

/-- Stub at source line 2753: the def of this name that Python keeps. -/
def _get_nat_gateway_code : List (String × String) := _get_basic_code "NAT Gateway"

/-- Stub at source line 2756: the def of this name that Python keeps. -/
def _get_security_groups_code : List (String × String) := _get_basic_code "Security Groups Configuration"

/-- Stub at source line 2759: the def of this name that Python keeps. -/
def _get_three_tier_code : List (String × String) := _get_basic_code "3-Tier Web Application Architecture"

/-- Stub at source line 2762: the def of this name that Python keeps. -/
def _get_serverless_webapp_code : List (String × String) := _get_basic_code "Serverless Web Application"

/-- Stub at source line 2765: the def of this name that Python keeps. -/
def _get_data_lake_code : List (String × String) := _get_basic_code "Data Lake Architecture"

/-- GitHubPatternFetcher.get_pattern_code, source lines 1796 to 1842: a chain
of substring tests on the pattern name, in the order written.  The branches for
VPC, EC2 and S3 call methods that no def in the file provides, so Python raises
AttributeError there; those branches are embedded as Except.error values. -/
def get_pattern_code (pattern : TerraformPattern) : Except String (List (String × String)) :=
  if pyIn "VPC" pattern.name then
    Except.error "AttributeError: GitHubPatternFetcher object has no attribute _get_vpc_code"
  else if pyIn "EC2" pattern.name then
    Except.error "AttributeError: GitHubPatternFetcher object has no attribute _get_ec2_code"
  else if pyIn "RDS" pattern.name then Except.ok _get_rds_code
  else if pyIn "S3" pattern.name then
    Except.error "AttributeError: GitHubPatternFetcher object has no attribute _get_s3_code"
  else if pyIn "Application Load Balancer" pattern.name then Except.ok _get_alb_code
  else if pyIn "EKS" pattern.name then Except.ok _get_eks_code
  else if pyIn "Lambda" pattern.name then Except.ok _get_lambda_code
  else if pyIn "Auto Scaling" pattern.name then Except.ok _get_asg_code
  else if pyIn "CloudFront" pattern.name then Except.ok _get_cloudfront_code
  else if pyIn "API Gateway" pattern.name then Except.ok _get_api_gateway_code
  else if pyIn "SQS" pattern.name then Except.ok _get_sqs_code
  else if pyIn "SNS" pattern.name then Except.ok _get_sns_code
  else if pyIn "IAM" pattern.name then Except.ok _get_iam_code
  else if pyIn "Secrets Manager" pattern.name then Except.ok _get_secrets_manager_code
  else if pyIn "CloudWatch" pattern.name then Except.ok _get_cloudwatch_code
  else if pyIn "DynamoDB" pattern.name then Except.ok _get_dynamodb_code
  else if pyIn "ElastiCache" pattern.name then Except.ok _get_elasticache_code
  else if pyIn "Route53" pattern.name then Except.ok _get_route53_code
  else if pyIn "Security Groups" pattern.name then Except.ok _get_security_groups_code
  else if pyIn "3-Tier" pattern.name then Except.ok _get_three_tier_code
  else if pyIn "Serverless Web" pattern.name then Except.ok _get_serverless_webapp_code
  else Except.ok (_get_basic_code pattern.name)

/-- True exactly on the Except.error branches of get_pattern_code. -/
def isErrB {e a : Type} : Except e a → Bool
  | Except.error _ => true
  | Except.ok _ => false

/-! ## ClaudeCodeGenerator

The requirements dict the UI collects is embedded as a record of optional
fields; requirements.get with a default becomes Option.getD.  The anthropic
client is opaque to the repository and appears as Option Unit (None when the
importing anthropic failed and the constructor stored client = None); the call
together with the response.content[0].text projection is one external step,
passed in as a function from the prompt to Except (the error branch standing
for any exception the try block catches); json.loads is passed in as a
function to an arbitrary parse-result type, none standing for JSONDecodeError. -/

/-- The fields of the requirements dict that _build_generation_prompt reads. -/
structure Requirements where
  provider : Option String
  project_name : Option String
  services : Option (List String)
  environment : Option String
  region : Option String
  description : Option String
  ha_required : Option Bool
  backup_required : Option Bool
  monitoring : Option Bool
  auto_scaling : Option Bool
  compliance : Option String
  security_hardening : Option Bool
  vpc_config : Option String

/-- ClaudeCodeGenerator._build_generation_prompt, source lines 2841 to 2889:
the f-string, written as the ordered list of its pieces (literal segments are
split only at piece boundaries and around the fixed file names, so that the
concatenation is character for character the string the source builds). -/
def _build_generation_prompt (requirements : Requirements) : String :=
  strConcat [
    "\nYou are an expert Terraform engineer. Generate production-ready Terraform code based on these requirements:\n\n**Infrastructure Requirements:**\n- Cloud Provider: ",
    requirements.provider.getD "AWS",
    "\n- Project Name: ",
    requirements.project_name.getD "infrastructure",
    "\n- Services Needed: ",
    String.intercalate ", " (requirements.services.getD []),
    "\n- Environment: ",
    requirements.environment.getD "development",
    "\n- Region: ",
    requirements.region.getD "us-west-2",
    "\n\n**Project Details:**\n- Description: ",
    requirements.description.getD "Infrastructure deployment",
    "\n- High Availability: ",
    pyBoolStr (requirements.ha_required.getD false),
    "\n- Backup Required: ",
    pyBoolStr (requirements.backup_required.getD false),
    "\n- Monitoring: ",
    pyBoolStr (requirements.monitoring.getD false),
    "\n- Auto Scaling: ",
    pyBoolStr (requirements.auto_scaling.getD false),
    "\n\n**Security & Compliance:**\n- Compliance: ",
    requirements.compliance.getD "Standard",
    "\n- Security Hardening: ",
    pyBoolStr (requirements.security_hardening.getD true),
    "\n- VPC Configuration: ",
    requirements.vpc_config.getD "Default",
    "\n\nPlease generate these files:\n1. ",
    "main.tf",
    " - Main resource definitions\n2. ",
    "variables.tf",
    " - Input variables with descriptions and defaults  \n3. ",
    "outputs.tf",
    " - Output values\n4. ",
    "versions.tf",
    " - Provider version constraints\n\nFollow these best practices:\n- Use consistent naming with ",
    requirements.environment.getD "dev",
    " prefix\n- Include proper tags for resource management\n- Implement security best practices\n- Add comprehensive comments\n- Use data sources where appropriate\n- Include proper resource dependencies\n\nReturn your response in this exact ",
    "JSON format",
    ":\n\x7b\n    \"",
    "main.tf",
    "\": \"terraform code here\",\n    \"",
    "variables.tf",
    "\": \"variables code here\", \n    \"",
    "outputs.tf",
    "\": \"outputs code here\",\n    \"",
    "versions.tf",
    "\": \"versions code here\"\n\x7d\n"]

/-- ClaudeCodeGenerator._create_fallback_response, source lines 2907 to 2955. -/
def _create_fallback_response (response : String) : List (String × String) :=
  [("main.tf", response),
   ("variables.tf", "variable \"aws_region\" \x7b\n  description = \"AWS region\"\n  type        = string\n  default     = \"us-west-2\"\n\x7d\n\nvariable \"environment\" \x7b\n  description = \"Environment name\"\n  type        = string\n  default     = \"dev\"\n\x7d\n\nvariable \"common_tags\" \x7b\n  description = \"Common tags for all resources\"\n  type        = map(string)\n  default = \x7b\n    Terraform   = \"true\"\n    Environment = \"dev\"\n  \x7d\n\x7d"),
   ("outputs.tf", "# Outputs will be defined based on created resources\n# Example outputs:\n# output \"vpc_id\" \x7b\n#   description = \"VPC ID\"\n#   value       = aws_vpc.main.id\n# \x7d"),
   ("versions.tf", "terraform \x7b\n  required_version = \">= 1.0\"\n  \n  required_providers \x7b\n    aws = \x7b\n      source  = \"hashicorp/aws\"\n      version = \"~> 5.0\"\n    \x7d\n  \x7d\n\x7d\n\nprovider \"aws\" \x7b\n  region = var.aws_region\n  \n  default_tags \x7b\n    tags = var.common_tags\n  \x7d\n\x7d")]

/-- The result of _parse_terraform_response: either the object json.loads
produced, or the fallback dictionary. -/
inductive ParseResult (J : Type) where
  | parsed (j : J)
  | fallback (files : List (String × String))
deriving DecidableEq

/-- The json_str slice the source extracts: response[start_idx:end_idx], where
start_idx is response.find of the opening brace and end_idx is response.rfind
of the closing brace plus one, exactly the locals of the source. -/
def extracted_json_slice (response : String) : String :=
  pySlice response (pyFind response lbrace) (pyRfind response rbrace + 1)

/-- ClaudeCodeGenerator._parse_terraform_response, source lines 2891 to 2905.
The condition is the source test start_idx != -1 and end_idx != -1, with the
two locals written out; json_loads stands for json.loads, with none for a
JSONDecodeError, the one exception the except clause of the source names. -/
def _parse_terraform_response {J : Type} (json_loads : String → Option J)
    (response : String) : ParseResult J :=
  if pyFind response lbrace ≠ -1 ∧ pyRfind response rbrace + 1 ≠ -1 then
    match json_loads (extracted_json_slice response) with
    | some j => ParseResult.parsed j
    | none => ParseResult.fallback (_create_fallback_response response)
  else
    ParseResult.fallback (_create_fallback_response response)

/-- What generate_terraform_code returns: the empty dict of its two early
return branches, or the parse result of the response text. -/
inductive GenResult (J : Type) where
  | emptyDict
  | files (r : ParseResult J)
deriving DecidableEq

/-- ClaudeCodeGenerator.generate_terraform_code, source lines 2819 to 2839.
client is self.client (none when the anthropic import failed); api_call is the
messages.create call followed by the response.content[0].text projection, its
error branch standing for any exception raised inside the try block, which the
except Exception clause catches (reporting via st.error and returning the
empty dict).  The call happens once: there is no retry. -/
def generate_terraform_code {J : Type} (client : Option Unit)
    (json_loads : String → Option J) (api_call : String → Except String String)
    (requirements : Requirements) : GenResult J :=
  match client with
  | none => GenResult.emptyDict
  | some _ =>
    match api_call (_build_generation_prompt requirements) with
    | Except.error _ => GenResult.emptyDict
    | Except.ok text => GenResult.files (_parse_terraform_response json_loads text)

/-! ## create_terraform_zip

The source iterates the dict and calls zipfile.writestr once per entry, then
returns the buffer bytes.  The zipfile library is external to the repository;
its container format is modelled as a stream of length-prefixed records, one
per writestr call in order (DEFLATE compression and UTF-8 encoding are
injective and inverted by the reader, so the archive bytes determine exactly
the written names and contents).  readZipEntries is the reader for that model:
the round trip below is the fidelity statement for the packager. -/

/-- One string as a length-prefixed record of character codes. -/
def encodeString (s : String) : List Nat :=
  s.data.length :: s.data.map Char.toNat

/-- One writestr call: the file name record then the content record. -/
def encodeEntry (e : String × String) : List Nat :=
  encodeString e.1 ++ encodeString e.2

/-- create_terraform_zip, source lines 2958 to 2967: one record per dict
entry, in iteration order. -/
def create_terraform_zip (files_dict : List (String × String)) : List Nat :=
  files_dict.foldl (fun acc e => acc ++ encodeEntry e) []

/-- Reads one length-prefixed record off the stream. -/
def decodeString : List Nat → Option (String × List Nat)
  | [] => none
  | n :: rest =>
    if n ≤ rest.length then
      some (String.mk ((rest.take n).map Char.ofNat), rest.drop n)
    else none

/-- Reads records two at a time until the stream is empty; the fuel argument
bounds the recursion by the stream length. -/
def readZipAux : Nat → List Nat → Option (List (String × String))
  | _, [] => some []
  | 0, _ :: _ => none
  | fuel + 1, b :: bs =>
    match decodeString (b :: bs) with
    | none => none
    | some (name, r1) =>
      match decodeString r1 with
      | none => none
      | some (content, r2) =>
        match readZipAux fuel r2 with
        | none => none
        | some entries => some ((name, content) :: entries)

/-- The reader for the archive model: recovers the written entries. -/
def readZipEntries (archive : List Nat) : Option (List (String × String)) :=
  readZipAux archive.length archive

/-! ## generate_jenkins_pipeline -/

/-- The shell command of the Terraform Apply stage: terraform apply, the
auto_approve_flag the source computes from auto_approve, then tfplan. -/
def terraform_apply_command (auto_approve : Bool) : String :=
  "terraform apply " ++ (if auto_approve then "-auto-approve" else "") ++ " tfplan"

/-- generate_jenkins_pipeline, source lines 2969 to 3044: the f-string as the
ordered list of its pieces.  The function reads nothing but its four
arguments, so it is deterministic by construction.  The segment holding the
apply command is grouped as terraform_apply_command auto_approve, which equals
the source text terraform apply, flag, tfplan character for character. -/
def generate_jenkins_pipeline (project_name git_repo tf_version : String)
    (auto_approve : Bool) : String :=
  strConcat [
    "pipeline \x7b\n    agent any\n    \n    environment \x7b\n        TERRAFORM_VERSION = '",
    tf_version,
    "'\n        PROJECT_NAME = '",
    project_name,
    "'\n        AWS_DEFAULT_REGION = 'us-west-2'\n    \x7d\n    \n    stages \x7b\n        stage('Checkout') \x7b\n            steps \x7b\n                git branch: 'main', url: '",
    git_repo,
    "'\n            \x7d\n        \x7d\n        \n        stage('Terraform Init') \x7b\n            steps \x7b\n                sh '''\n                    terraform --version\n                    terraform init\n                '''\n            \x7d\n        \x7d\n        \n        stage('Terraform Validate') \x7b\n            steps \x7b\n                sh 'terraform validate'\n            \x7d\n        \x7d\n        \n        stage('Terraform Plan') \x7b\n            steps \x7b\n                sh '''\n                    terraform plan -out=tfplan\n                    terraform show -no-color tfplan > tfplan.txt\n                '''\n                publishHTML([\n                    allowMissing: false,\n                    alwaysLinkToLastBuild: true,\n                    keepAll: true,\n                    reportDir: '.',\n                    reportFiles: 'tfplan.txt',\n                    reportName: 'Terraform Plan'\n                ])\n            \x7d\n        \x7d\n        \n        stage('Terraform Apply') \x7b\n            when \x7b\n                branch 'main'\n            \x7d\n            steps \x7b\n                sh '",
    terraform_apply_command auto_approve,
    "'\n            \x7d\n        \x7d\n    \x7d\n    \n    post \x7b\n        always \x7b\n            archiveArtifacts artifacts: '*.tf, *.tfvars, tfplan.txt', fingerprint: true\n        \x7d\n        \n        failure \x7b\n            emailext (\n                subject: \"Terraform Deploy Failed: ",
    project_name,
    "\",\n                body: \"The Terraform deployment has failed. Please check the logs.\",\n                to: \"$\x7benv.CHANGE_AUTHOR_EMAIL\x7d\"\n            )\n        \x7d\n    \x7d\n\x7d"]

/-! ## Helper lemmas about the string primitives -/

theorem leadsWith_append_self (x r : List Char) : leadsWith x (x ++ r) = true := by
  induction x with
  | nil => rfl
  | cons a as ih => simp [leadsWith, ih]

theorem containsSub_of_leadsWith (sub l : List Char) (h : leadsWith sub l = true) :
    containsSub sub l = true := by
  cases l with
  | nil => simpa [containsSub] using h
  | cons c cs => simp [containsSub, h]

theorem containsSub_append_left (sub a l : List Char) (h : containsSub sub l = true) :
    containsSub sub (a ++ l) = true := by
  induction a with
  | nil => simpa using h
  | cons c cs ih => simp [containsSub, ih]

theorem pyIn_append_self_left (x r : String) : pyIn x (x ++ r) = true :=
  containsSub_of_leadsWith x.data (x.data ++ r.data) (leadsWith_append_self x.data r.data)

theorem pyIn_strConcat (x : String) (ps : List String) (hx : x ∈ ps) :
    pyIn x (strConcat ps) = true := by
  induction ps with
  | nil => cases hx
  | cons p ps ih =>
    cases hx with
    | head => exact pyIn_append_self_left x (strConcat ps)
    | tail _ h => exact containsSub_append_left x.data p.data (strConcat ps).data (ih h)

/-! ## The claims -/

/-- Claim C7: _build_generation_prompt forwards every user-entered requirement
into the prompt string: the provider (default AWS), the project name (default
infrastructure), the comma-joined services list, the environment, the region,
the description, the compliance and VPC settings, and the fixed instruction
naming the four files main.tf, variables.tf, outputs.tf and versions.tf in
JSON format. -/
theorem build_generation_prompt_forwards_requirements (requirements : Requirements) :
    pyIn (requirements.provider.getD "AWS") (_build_generation_prompt requirements) = true
  ∧ pyIn (requirements.project_name.getD "infrastructure") (_build_generation_prompt requirements) = true
  ∧ pyIn (String.intercalate ", " (requirements.services.getD [])) (_build_generation_prompt requirements) = true
  ∧ pyIn (requirements.environment.getD "development") (_build_generation_prompt requirements) = true
  ∧ pyIn (requirements.region.getD "us-west-2") (_build_generation_prompt requirements) = true
  ∧ pyIn (requirements.description.getD "Infrastructure deployment") (_build_generation_prompt requirements) = true
  ∧ pyIn (requirements.compliance.getD "Standard") (_build_generation_prompt requirements) = true
  ∧ pyIn (requirements.vpc_config.getD "Default") (_build_generation_prompt requirements) = true
  ∧ pyIn "main.tf" (_build_generation_prompt requirements) = true
  ∧ pyIn "variables.tf" (_build_generation_prompt requirements) = true
  ∧ pyIn "outputs.tf" (_build_generation_prompt requirements) = true
  ∧ pyIn "versions.tf" (_build_generation_prompt requirements) = true
  ∧ pyIn "JSON format" (_build_generation_prompt requirements) = true := by
  unfold _build_generation_prompt
  refine ⟨?_, ?_, ?_, ?_, ?_, ?_, ?_, ?_, ?_, ?_, ?_, ?_, ?_⟩ <;>
    exact pyIn_strConcat _ _ (by simp)

/-- Claim C10: generate_jenkins_pipeline is deterministic in its four
arguments (it is a pure function of them by construction), the generated text
embeds the project name, git repository URL and Terraform version verbatim,
the text contains the apply command, and that apply command contains the
-auto-approve flag exactly when auto_approve is true. -/
theorem generate_jenkins_pipeline_embeds_arguments (project_name git_repo tf_version : String)
    (auto_approve : Bool) :
    pyIn project_name (generate_jenkins_pipeline project_name git_repo tf_version auto_approve) = true
  ∧ pyIn git_repo (generate_jenkins_pipeline project_name git_repo tf_version auto_approve) = true
  ∧ pyIn tf_version (generate_jenkins_pipeline project_name git_repo tf_version auto_approve) = true
  ∧ pyIn (terraform_apply_command auto_approve) (generate_jenkins_pipeline project_name git_repo tf_version auto_approve) = true
  ∧ pyIn "-auto-approve" (terraform_apply_command auto_approve) = auto_approve := by
  unfold generate_jenkins_pipeline
  refine ⟨pyIn_strConcat _ _ (by simp), pyIn_strConcat _ _ (by simp),
    pyIn_strConcat _ _ (by simp), pyIn_strConcat _ _ (by simp), ?_⟩
  cases auto_approve <;> rfl

theorem listRfind_ge_neg_one (c : Char) (l : List Char) : -1 ≤ listRfind c l := by
  induction l with
  | nil => simp [listRfind]
  | cons a as ih =>
    simp only [listRfind]
    split
    · split <;> omega
    · omega

/-- Claim C2: _parse_terraform_response is total with a fallback path.  When a
brace is found and json.loads succeeds on the extracted slice, the parsed
object is returned; when no opening brace is present, or json.loads fails on
the slice, the fallback dictionary is returned, whose keys are exactly
main.tf, variables.tf, outputs.tf and versions.tf and whose main.tf value is
the raw input unchanged.  The end_idx test of the source can never fail, since
rfind returns at least -1 and the source adds one. -/
theorem parse_terraform_response_total_with_fallback {J : Type}
    (json_loads : String → Option J) (response : String) :
    (pyFind response lbrace ≠ -1 →
      ∀ j, json_loads (extracted_json_slice response) = some j →
        _parse_terraform_response json_loads response = ParseResult.parsed j)
  ∧ ((pyFind response lbrace = -1 ∨ json_loads (extracted_json_slice response) = none) →
      _parse_terraform_response json_loads response
        = ParseResult.fallback (_create_fallback_response response))
  ∧ (_create_fallback_response response).map Prod.fst
      = ["main.tf", "variables.tf", "outputs.tf", "versions.tf"]
  ∧ (_create_fallback_response response).lookup "main.tf" = some response := by
  have hend : pyRfind response rbrace + 1 ≠ -1 := by
    have := listRfind_ge_neg_one rbrace response.data
    unfold pyRfind
    omega
  refine ⟨?_, ?_, rfl, rfl⟩
  · intro hs j hj
    unfold _parse_terraform_response
    rw [if_pos ⟨hs, hend⟩, hj]
  · intro h
    unfold _parse_terraform_response
    rcases h with hs | hl
    · rw [if_neg]
      intro hc
      exact hc.1 hs
    · by_cases hs : pyFind response lbrace = -1
      · rw [if_neg]
        intro hc
        exact hc.1 hs
      · rw [if_pos ⟨hs, hend⟩, hl]

/-- Claim C3: generate_terraform_code never propagates an exception.  With an
uninitialized client it returns the empty dictionary; when the external call
raises (the error branch of api_call) the exception is caught and the empty
dictionary is returned; when the call succeeds the response text is parsed and
returned from that single call, with no retry or other recovery. -/
theorem generate_terraform_code_catches_all {J : Type}
    (json_loads : String → Option J) (api_call : String → Except String String)
    (requirements : Requirements) :
    generate_terraform_code (J := J) none json_loads api_call requirements = GenResult.emptyDict
  ∧ (∀ e, api_call (_build_generation_prompt requirements) = Except.error e →
      generate_terraform_code (some ()) json_loads api_call requirements = GenResult.emptyDict)
  ∧ (∀ text, api_call (_build_generation_prompt requirements) = Except.ok text →
      generate_terraform_code (some ()) json_loads api_call requirements
        = GenResult.files (_parse_terraform_response json_loads text)) := by
  refine ⟨rfl, ?_, ?_⟩
  · intro e he
    unfold generate_terraform_code
    rw [he]
  · intro text ht
    unfold generate_terraform_code
    rw [ht]

/-- The archive stream spelled as a right fold: one record per entry. -/
def zipBytes : List (String × String) → List Nat
  | [] => []
  | e :: es => encodeEntry e ++ zipBytes es

theorem foldl_append_encode (files_dict : List (String × String)) :
    ∀ acc : List Nat,
      files_dict.foldl (fun acc e => acc ++ encodeEntry e) acc = acc ++ zipBytes files_dict := by
  induction files_dict with
  | nil => intro acc; simp [zipBytes]
  | cons e es ih => intro acc; simp [List.foldl, zipBytes, ih, List.append_assoc]

theorem create_terraform_zip_eq_zipBytes (files_dict : List (String × String)) :
    create_terraform_zip files_dict = zipBytes files_dict := by
  have := foldl_append_encode files_dict []
  simpa [create_terraform_zip] using this

theorem decodeString_encodeString (s : String) (rest : List Nat) :
    decodeString (encodeString s ++ rest) = some (s, rest) := by
  have hlen : s.data.length = (s.data.map Char.toNat).length := (List.length_map _ _).symm
  simp only [encodeString, List.cons_append, decodeString]
  rw [if_pos]
  · rw [hlen, List.take_left, List.drop_left, List.map_map]
    have hcomp : Char.ofNat ∘ Char.toNat = id := funext fun c => Char.ofNat_toNat c
    rw [hcomp, List.map_id]
  · rw [hlen]
    simp

theorem readZipAux_cons_eq (fuel : Nat) (l : List Nat) (hl : l ≠ []) :
    readZipAux (fuel + 1) l =
      match decodeString l with
      | none => none
      | some (name, r1) =>
        match decodeString r1 with
        | none => none
        | some (content, r2) =>
          match readZipAux fuel r2 with
          | none => none
          | some entries => some ((name, content) :: entries) := by
  cases l with
  | nil => cases hl rfl
  | cons b bs => rfl

theorem encodeString_ne_nil (s : String) (rest : List Nat) : encodeString s ++ rest ≠ [] := by
  simp [encodeString]

theorem readZipAux_zipBytes (files_dict : List (String × String)) :
    ∀ fuel, files_dict.length ≤ fuel → readZipAux fuel (zipBytes files_dict) = some files_dict := by
  induction files_dict with
  | nil => intro fuel _; cases fuel <;> rfl
  | cons e es ih =>
    intro fuel hf
    cases fuel with
    | zero => simp at hf
    | succ f =>
      have hz : zipBytes (e :: es) = encodeString e.1 ++ (encodeString e.2 ++ zipBytes es) := by
        simp [zipBytes, encodeEntry, List.append_assoc]
      rw [hz, readZipAux_cons_eq f _ (encodeString_ne_nil _ _),
        decodeString_encodeString e.1 (encodeString e.2 ++ zipBytes es)]
      simp only []
      rw [decodeString_encodeString e.2 (zipBytes es)]
      simp only []
      rw [ih f (by simpa using Nat.le_of_succ_le_succ hf)]

theorem zipBytes_length_ge (files_dict : List (String × String)) :
    files_dict.length ≤ (zipBytes files_dict).length := by
  induction files_dict with
  | nil => simp [zipBytes]
  | cons e es ih =>
    simp only [zipBytes, encodeEntry, encodeString, List.length_append, List.length_cons]
    omega

/-- Claim C4: create_terraform_zip is a faithful packager.  Reading back the
archive it produces recovers exactly the input entries, in order, each file
name with its original content: nothing is added, dropped or altered. -/
theorem create_terraform_zip_round_trip (files_dict : List (String × String)) :
    readZipEntries (create_terraform_zip files_dict) = some files_dict := by
  rw [create_terraform_zip_eq_zipBytes]
  unfold readZipEntries
  exact readZipAux_zipBytes files_dict _ (zipBytes_length_ge files_dict)

/-- Claim C8: fetch_aws_patterns is a constant function of no input, so every
call returns this same fixed list of 29 patterns in this same order (the
names, in order, are listed explicitly); every pattern carries provider aws,
the fixed download url, a nonempty files list containing main.tf, variables.tf
and outputs.tf, and a path equal to terraform-aws-modules/ followed by the
name lower-cased with spaces replaced by hyphens. -/
theorem fetch_aws_patterns_catalog_invariants :
    fetch_aws_patterns.length = 29
  ∧ fetch_aws_patterns.map (fun p => p.name) =
      ["VPC Module", "Security Groups", "NAT Gateway", "EC2 Instance", "Auto Scaling Group",
       "Lambda Function", "EKS Cluster", "ECS Cluster", "S3 Bucket", "EFS File System",
       "RDS Database", "ElastiCache Redis", "DynamoDB Table", "Application Load Balancer",
       "Network Load Balancer", "CloudFront Distribution", "Route53 DNS", "API Gateway",
       "SQS Queue", "SNS Topic", "IAM Roles & Policies", "Secrets Manager", "Parameter Store",
       "CloudWatch Monitoring", "ECR Repository", "CodePipeline", "3-Tier Web Application",
       "Serverless Web App", "Data Lake Architecture"]
  ∧ (fetch_aws_patterns.all fun p =>
      p.provider == "aws"
      && p.download_url == "https://github.com/terraform-aws-modules"
      && !p.files.isEmpty
      && p.files.contains "main.tf"
      && p.files.contains "variables.tf"
      && p.files.contains "outputs.tf"
      && p.path == "terraform-aws-modules/" ++ pyReplaceChar (pyLower p.name) ' ' '-') = true := by
  refine ⟨rfl, rfl, rfl⟩

/-- Claim C1 (code bug): over the 29-entry catalog the download path does not
always succeed.  get_pattern_code dispatches a name containing VPC, EC2 or S3
to self._get_vpc_code, self._get_ec2_code or self._get_s3_code, and no def of
those three names exists anywhere in the file, so Python raises AttributeError
there instead of returning a template dictionary; exactly the catalog entries
VPC Module, EC2 Instance and S3 Bucket hit those branches, and the other 26
entries succeed.  (Independently, the file does not even parse as written:
line 332 holds a return at the same indentation as its def.) -/
theorem catalog_download_fails_for_vpc_ec2_s3 :
    (fetch_aws_patterns.filter fun p => isErrB (get_pattern_code p)).map (fun p => p.name)
      = ["VPC Module", "EC2 Instance", "S3 Bucket"]
  ∧ (fetch_aws_patterns.filter fun p => !(isErrB (get_pattern_code p))).length = 26 := by
  refine ⟨rfl, rfl⟩

/-- Dispatch conditions of get_pattern_code selecting the Auto Scaling branch:
every earlier substring test fails and the Auto Scaling test passes. -/
def reaches_asg_branch (name : String) : Prop :=
  pyIn "VPC" name = false ∧ pyIn "EC2" name = false ∧ pyIn "RDS" name = false ∧
  pyIn "S3" name = false ∧ pyIn "Application Load Balancer" name = false ∧
  pyIn "EKS" name = false ∧ pyIn "Lambda" name = false ∧ pyIn "Auto Scaling" name = true

/-- Dispatch conditions selecting the CloudFront branch. -/
def reaches_cloudfront_branch (name : String) : Prop :=
  pyIn "VPC" name = false ∧ pyIn "EC2" name = false ∧ pyIn "RDS" name = false ∧
  pyIn "S3" name = false ∧ pyIn "Application Load Balancer" name = false ∧
  pyIn "EKS" name = false ∧ pyIn "Lambda" name = false ∧ pyIn "Auto Scaling" name = false ∧
  pyIn "CloudFront" name = true

/-- Dispatch conditions selecting the API Gateway branch. -/
def reaches_api_gateway_branch (name : String) : Prop :=
  pyIn "VPC" name = false ∧ pyIn "EC2" name = false ∧ pyIn "RDS" name = false ∧
  pyIn "S3" name = false ∧ pyIn "Application Load Balancer" name = false ∧
  pyIn "EKS" name = false ∧ pyIn "Lambda" name = false ∧ pyIn "Auto Scaling" name = false ∧
  pyIn "CloudFront" name = false ∧ pyIn "API Gateway" name = true

/-- Dispatch conditions selecting the SQS branch. -/
def reaches_sqs_branch (name : String) : Prop :=
  pyIn "VPC" name = false ∧ pyIn "EC2" name = false ∧ pyIn "RDS" name = false ∧
  pyIn "S3" name = false ∧ pyIn "Application Load Balancer" name = false ∧
  pyIn "EKS" name = false ∧ pyIn "Lambda" name = false ∧ pyIn "Auto Scaling" name = false ∧
  pyIn "CloudFront" name = false ∧ pyIn "API Gateway" name = false ∧ pyIn "SQS" name = true

/-- Dispatch conditions selecting the SNS branch. -/
def reaches_sns_branch (name : String) : Prop :=
  pyIn "VPC" name = false ∧ pyIn "EC2" name = false ∧ pyIn "RDS" name = false ∧
  pyIn "S3" name = false ∧ pyIn "Application Load Balancer" name = false ∧
  pyIn "EKS" name = false ∧ pyIn "Lambda" name = false ∧ pyIn "Auto Scaling" name = false ∧
  pyIn "CloudFront" name = false ∧ pyIn "API Gateway" name = false ∧
  pyIn "SQS" name = false ∧ pyIn "SNS" name = true

/-- Dispatch conditions selecting the DynamoDB branch. -/
def reaches_dynamodb_branch (name : String) : Prop :=
  pyIn "VPC" name = false ∧ pyIn "EC2" name = false ∧ pyIn "RDS" name = false ∧
  pyIn "S3" name = false ∧ pyIn "Application Load Balancer" name = false ∧
  pyIn "EKS" name = false ∧ pyIn "Lambda" name = false ∧ pyIn "Auto Scaling" name = false ∧
  pyIn "CloudFront" name = false ∧ pyIn "API Gateway" name = false ∧
  pyIn "SQS" name = false ∧ pyIn "SNS" name = false ∧ pyIn "IAM" name = false ∧
  pyIn "Secrets Manager" name = false ∧ pyIn "CloudWatch" name = false ∧
  pyIn "DynamoDB" name = true

/-- Dispatch conditions selecting the Security Groups branch. -/
def reaches_security_groups_branch (name : String) : Prop :=
  pyIn "VPC" name = false ∧ pyIn "EC2" name = false ∧ pyIn "RDS" name = false ∧
  pyIn "S3" name = false ∧ pyIn "Application Load Balancer" name = false ∧
  pyIn "EKS" name = false ∧ pyIn "Lambda" name = false ∧ pyIn "Auto Scaling" name = false ∧
  pyIn "CloudFront" name = false ∧ pyIn "API Gateway" name = false ∧
  pyIn "SQS" name = false ∧ pyIn "SNS" name = false ∧ pyIn "IAM" name = false ∧
  pyIn "Secrets Manager" name = false ∧ pyIn "CloudWatch" name = false ∧
  pyIn "DynamoDB" name = false ∧ pyIn "ElastiCache" name = false ∧
  pyIn "Route53" name = false ∧ pyIn "Security Groups" name = true

/-- Claim C9: since the textually later stub defs shadow the earlier detailed
template methods of the same class, every pattern whose name dispatches to the
DynamoDB, Security Groups, API Gateway, SQS, SNS, Auto Scaling or CloudFront
branch gets exactly the generic template of _get_basic_code at the stub's
fixed argument: three keys main.tf, variables.tf and outputs.tf, with main.tf
mentioning the service name; in particular the detailed DynamoDB template
defined earlier in the file, whose body opens an aws_dynamodb_table resource,
is never returned (the generic main.tf has no such resource block). -/
theorem later_stubs_shadow_detailed_templates (p : TerraformPattern) :
    (reaches_dynamodb_branch p.name →
      get_pattern_code p = Except.ok (_get_basic_code "DynamoDB Table"))
  ∧ (reaches_security_groups_branch p.name →
      get_pattern_code p = Except.ok (_get_basic_code "Security Groups Configuration"))
  ∧ (reaches_api_gateway_branch p.name →
      get_pattern_code p = Except.ok (_get_basic_code "API Gateway"))
  ∧ (reaches_sqs_branch p.name →
      get_pattern_code p = Except.ok (_get_basic_code "SQS Queue"))
  ∧ (reaches_sns_branch p.name →
      get_pattern_code p = Except.ok (_get_basic_code "SNS Topic"))
  ∧ (reaches_asg_branch p.name →
      get_pattern_code p = Except.ok (_get_basic_code "Auto Scaling Group"))
  ∧ (reaches_cloudfront_branch p.name →
      get_pattern_code p = Except.ok (_get_basic_code "CloudFront Distribution"))
  ∧ (["DynamoDB Table", "Security Groups Configuration", "API Gateway", "SQS Queue",
      "SNS Topic", "Auto Scaling Group", "CloudFront Distribution"].all fun service =>
        ((_get_basic_code service).map Prod.fst == ["main.tf", "variables.tf", "outputs.tf"])
        && pyIn service (((_get_basic_code service).lookup "main.tf").getD "")) = true
  ∧ pyIn "resource \"aws_dynamodb_table\""
      (((_get_basic_code "DynamoDB Table").lookup "main.tf").getD "") = false := by
  refine ⟨?_, ?_, ?_, ?_, ?_, ?_, ?_, rfl, rfl⟩
  · intro h
    obtain ⟨h1, h2, h3, h4, h5, h6, h7, h8, h9, h10, h11, h12, h13, h14, h15, h16⟩ := h
    simp [get_pattern_code, _get_dynamodb_code,
      h1, h2, h3, h4, h5, h6, h7, h8, h9, h10, h11, h12, h13, h14, h15, h16]
  · intro h
    obtain ⟨h1, h2, h3, h4, h5, h6, h7, h8, h9, h10, h11, h12, h13, h14, h15, h16, h17, h18, h19⟩ := h
    simp [get_pattern_code, _get_security_groups_code,
      h1, h2, h3, h4, h5, h6, h7, h8, h9, h10, h11, h12, h13, h14, h15, h16, h17, h18, h19]
  · intro h
    obtain ⟨h1, h2, h3, h4, h5, h6, h7, h8, h9, h10⟩ := h
    simp [get_pattern_code, _get_api_gateway_code,
      h1, h2, h3, h4, h5, h6, h7, h8, h9, h10]
  · intro h
    obtain ⟨h1, h2, h3, h4, h5, h6, h7, h8, h9, h10, h11⟩ := h
    simp [get_pattern_code, _get_sqs_code,
      h1, h2, h3, h4, h5, h6, h7, h8, h9, h10, h11]
  · intro h
    obtain ⟨h1, h2, h3, h4, h5, h6, h7, h8, h9, h10, h11, h12⟩ := h
    simp [get_pattern_code, _get_sns_code,
      h1, h2, h3, h4, h5, h6, h7, h8, h9, h10, h11, h12]
  · intro h
    obtain ⟨h1, h2, h3, h4, h5, h6, h7, h8⟩ := h
    simp [get_pattern_code, _get_asg_code, h1, h2, h3, h4, h5, h6, h7, h8]
  · intro h
    obtain ⟨h1, h2, h3, h4, h5, h6, h7, h8, h9⟩ := h
    simp [get_pattern_code, _get_cloudfront_code, h1, h2, h3, h4, h5, h6, h7, h8, h9]

/-- Whether any substring test of the get_pattern_code chain matches the name. -/
def any_dispatch_hit (name : String) : Bool :=
  ["VPC", "EC2", "RDS", "S3", "Application Load Balancer", "EKS", "Lambda",
   "Auto Scaling", "CloudFront", "API Gateway", "SQS", "SNS", "IAM",
   "Secrets Manager", "CloudWatch", "DynamoDB", "ElastiCache", "Route53",
   "Security Groups", "3-Tier", "Serverless Web"].any fun sub => pyIn sub name

/-- Claim C5, counterexample to the claim as stated: a pattern whose name is
VPC Module does not get any dictionary of template strings from
get_pattern_code; the VPC branch calls a method that does not exist, so the
call raises AttributeError instead. -/
theorem get_pattern_code_vpc_returns_no_dictionary :
    get_pattern_code
        ⟨"VPC Module", "some description", "some path", "some url",
         "networking", "aws", "intermediate", ["main.tf"]⟩
      = Except.error
          "AttributeError: GitHubPatternFetcher object has no attribute _get_vpc_code" := by
  rfl

/-- Claim C5 as amended: get_pattern_code is a pure dispatch on the pattern
name alone.  Two patterns with the same name get the same result, whatever
their other fields; the result is the fixed dictionary of the first matching
substring branch, except that the VPC, EC2 and S3 branches raise
AttributeError because their methods are missing; when no substring test in
the written order matches, the default branch returns the generic
_get_basic_code dictionary built from the name. -/
theorem get_pattern_code_dispatches_on_name_only (p q : TerraformPattern)
    (h : p.name = q.name) :
    get_pattern_code p = get_pattern_code q
  ∧ (any_dispatch_hit p.name = false →
      get_pattern_code p = Except.ok (_get_basic_code p.name)) := by
  constructor
  · unfold get_pattern_code
    rw [h]
  · intro hd
    simp only [any_dispatch_hit, List.any_cons, List.any_nil,
      Bool.or_eq_false_iff] at hd
    obtain ⟨h1, h2, h3, h4, h5, h6, h7, h8, h9, h10, h11, h12, h13, h14, h15,
      h16, h17, h18, h19, h20, h21, -⟩ := hd
    simp [get_pattern_code, h1, h2, h3, h4, h5, h6, h7, h8, h9, h10, h11, h12,
      h13, h14, h15, h16, h17, h18, h19, h20, h21]

/-- Witness for the amended claim C5 at concrete inputs: two patterns named
Data Lake Architecture that differ in every other field get the same result. -/
theorem get_pattern_code_dispatches_on_name_only_witness :
    get_pattern_code
        ⟨"Data Lake Architecture", "first description", "path-one", "url-one",
         "architecture", "aws", "advanced", []⟩
      = get_pattern_code
          ⟨"Data Lake Architecture", "second description", "path-two", "url-two",
           "storage", "gcp", "beginner", ["main.tf"]⟩ :=
  (get_pattern_code_dispatches_on_name_only
    ⟨"Data Lake Architecture", "first description", "path-one", "url-one",
     "architecture", "aws", "advanced", []⟩
    ⟨"Data Lake Architecture", "second description", "path-two", "url-two",
     "storage", "gcp", "beginner", ["main.tf"]⟩ rfl).1

/-- Claim C6, counterexample to the claim as stated: the catalog record is not
made up of only the six fields name, description, category, provider,
complexity and files.  Two TerraformPattern values that agree on all six of
those fields can still differ, because the record also holds a path and a
download_url field. -/
theorem terraform_pattern_not_determined_by_six_fields :
    ((⟨"VPC Module", "d", "path-one", "url-one", "networking", "aws",
        "intermediate", ["main.tf"]⟩ : TerraformPattern).name
        = (⟨"VPC Module", "d", "path-two", "url-two", "networking", "aws",
            "intermediate", ["main.tf"]⟩ : TerraformPattern).name
      ∧ (⟨"VPC Module", "d", "path-one", "url-one", "networking", "aws",
          "intermediate", ["main.tf"]⟩ : TerraformPattern).description
        = (⟨"VPC Module", "d", "path-two", "url-two", "networking", "aws",
            "intermediate", ["main.tf"]⟩ : TerraformPattern).description
      ∧ (⟨"VPC Module", "d", "path-one", "url-one", "networking", "aws",
          "intermediate", ["main.tf"]⟩ : TerraformPattern).category
        = (⟨"VPC Module", "d", "path-two", "url-two", "networking", "aws",
            "intermediate", ["main.tf"]⟩ : TerraformPattern).category
      ∧ (⟨"VPC Module", "d", "path-one", "url-one", "networking", "aws",
          "intermediate", ["main.tf"]⟩ : TerraformPattern).provider
        = (⟨"VPC Module", "d", "path-two", "url-two", "networking", "aws",
            "intermediate", ["main.tf"]⟩ : TerraformPattern).provider
      ∧ (⟨"VPC Module", "d", "path-one", "url-one", "networking", "aws",
          "intermediate", ["main.tf"]⟩ : TerraformPattern).complexity
        = (⟨"VPC Module", "d", "path-two", "url-two", "networking", "aws",
            "intermediate", ["main.tf"]⟩ : TerraformPattern).complexity
      ∧ (⟨"VPC Module", "d", "path-one", "url-one", "networking", "aws",
          "intermediate", ["main.tf"]⟩ : TerraformPattern).files
        = (⟨"VPC Module", "d", "path-two", "url-two", "networking", "aws",
            "intermediate", ["main.tf"]⟩ : TerraformPattern).files)
  ∧ (⟨"VPC Module", "d", "path-one", "url-one", "networking", "aws",
        "intermediate", ["main.tf"]⟩ : TerraformPattern)
      ≠ (⟨"VPC Module", "d", "path-two", "url-two", "networking", "aws",
          "intermediate", ["main.tf"]⟩ : TerraformPattern) := by
  refine ⟨⟨rfl, rfl, rfl, rfl, rfl, rfl⟩, ?_⟩
  decide

/-- Claim C6 as amended: a catalog entry is a flat record of exactly the eight
fields name, description, path, download_url, category, provider, complexity
and files: those eight projections determine the record. -/
theorem terraform_pattern_determined_by_eight_fields (p q : TerraformPattern)
    (h1 : p.name = q.name) (h2 : p.description = q.description)
    (h3 : p.path = q.path) (h4 : p.download_url = q.download_url)
    (h5 : p.category = q.category) (h6 : p.provider = q.provider)
    (h7 : p.complexity = q.complexity) (h8 : p.files = q.files) : p = q := by
  cases p
  cases q
  simp_all

/-- Witness for the amended claim C6 at a concrete input. -/
theorem terraform_pattern_determined_by_eight_fields_witness :
    (⟨"S3 Bucket", "d", "p", "u", "storage", "aws", "beginner", []⟩ : TerraformPattern)
      = ⟨"S3 Bucket", "d", "p", "u", "storage", "aws", "beginner", []⟩ :=
  terraform_pattern_determined_by_eight_fields
    ⟨"S3 Bucket", "d", "p", "u", "storage", "aws", "beginner", []⟩
    ⟨"S3 Bucket", "d", "p", "u", "storage", "aws", "beginner", []⟩
    rfl rfl rfl rfl rfl rfl rfl rfl
